import Mathlib

set_option maxRecDepth 8000

/-!
Verification of the filter-and-aggregate pipeline of the Samsung Global
Sales EDA application (`samsung_eda_streamlit.py`), as a shallow embedding:
pandas DataFrame rows become `Record` values, the column operations become
list functions, and nullable numeric cells become `Option ℚ`.
-/

/-- A calendar date, as `pd.read_csv(..., parse_dates=["sale_date"])` parses
the `sale_date` column. -/
structure Date where
  year : Nat
  month : Nat
  day : Nat
  deriving DecidableEq, Repr

/-- One row of the uploaded CSV, before `load_data` post-processes it: the
`year` column is the numeric value stored in the file itself, and no
`month_num` column exists yet. -/
structure RawRow where
  sale_date : Date
  year : Nat
  quarter : String
  region : String
  country : String
  category : String
  product_name : String
  customer_segment : String
  customer_age_group : String
  previous_device_os : Option String
  sales_channel : String
  payment_method : String
  return_status : String
  is_5g : String
  unit_price_usd : Option ℚ
  discount_pct : Option ℚ
  discounted_price_usd : Option ℚ
  units_sold : Option ℚ
  revenue_usd : Option ℚ
  customer_rating : Option ℚ
  deriving DecidableEq, Repr

/-- One row of the loaded DataFrame: every raw column, with `year` replaced
by its text form (`df["year"].astype(str)`) and the derived `month_num`
column added. -/
structure Record where
  sale_date : Date
  year : String
  quarter : String
  region : String
  country : String
  category : String
  product_name : String
  customer_segment : String
  customer_age_group : String
  previous_device_os : Option String
  sales_channel : String
  payment_method : String
  return_status : String
  is_5g : String
  unit_price_usd : Option ℚ
  discount_pct : Option ℚ
  discounted_price_usd : Option ℚ
  units_sold : Option ℚ
  revenue_usd : Option ℚ
  customer_rating : Option ℚ
  month_num : Nat
  deriving DecidableEq, Repr

/-- `load_data` on one row: `df["year"] = df["year"].astype(str)` keeps the
input file's own year column (converted to text), and
`df["month_num"] = pd.to_datetime(df["sale_date"]).dt.month` derives the
month index from the sale date. -/
def loadRow (x : RawRow) : Record :=
  { sale_date := x.sale_date
    year := toString x.year
    quarter := x.quarter
    region := x.region
    country := x.country
    category := x.category
    product_name := x.product_name
    customer_segment := x.customer_segment
    customer_age_group := x.customer_age_group
    previous_device_os := x.previous_device_os
    sales_channel := x.sales_channel
    payment_method := x.payment_method
    return_status := x.return_status
    is_5g := x.is_5g
    unit_price_usd := x.unit_price_usd
    discount_pct := x.discount_pct
    discounted_price_usd := x.discounted_price_usd
    units_sold := x.units_sold
    revenue_usd := x.revenue_usd
    customer_rating := x.customer_rating
    month_num := x.sale_date.month }

/-- `load_data` over the whole CSV. -/
def load_data (rows : List RawRow) : List Record :=
  rows.map loadRow

/-- The sidebar's three multiselect allow-lists (years, regions,
categories). -/
structure FilterSpec where
  years : List String
  regions : List String
  categories : List String
  deriving DecidableEq, Repr

/-- The filter application
`df_raw[df_raw["year"].isin(years) & df_raw["region"].isin(regions) &
df_raw["category"].isin(categories)]`. -/
def filterRecords (s : FilterSpec) (rs : List Record) : List Record :=
  rs.filter (fun r =>
    s.years.contains r.year && s.regions.contains r.region &&
      s.categories.contains r.category)

/-- C1: a record survives the filter iff its year, region and category each
belong to the corresponding allow-list; an empty allow-list on any dimension
empties the output. -/
theorem C1_filter_membership (s : FilterSpec) (rs : List Record) (r : Record) :
    (r ∈ filterRecords s rs ↔
      r ∈ rs ∧ r.year ∈ s.years ∧ r.region ∈ s.regions ∧ r.category ∈ s.categories) ∧
    (s.years = [] ∨ s.regions = [] ∨ s.categories = [] → filterRecords s rs = []) := by
  constructor
  · simp [filterRecords, List.mem_filter, and_assoc]
  · rintro (h | h | h) <;>
      simp [filterRecords, List.filter_eq_nil_iff, h]

/-- C2: widening every allow-list can only keep or add records, so the
filtered set under the narrower spec is a subset of the one under the wider
spec and its row count is no larger. -/
theorem C2_filter_monotone (s t : FilterSpec) (rs : List Record)
    (hy : s.years ⊆ t.years) (hr : s.regions ⊆ t.regions)
    (hc : s.categories ⊆ t.categories) :
    filterRecords s rs ⊆ filterRecords t rs ∧
      (filterRecords s rs).length ≤ (filterRecords t rs).length := by
  have hsub : List.Sublist (filterRecords s rs) (filterRecords t rs) := by
    refine List.monotone_filter_right rs ?_
    intro r h
    simp only [Bool.and_eq_true, List.elem_iff] at h ⊢
    exact ⟨⟨hy h.1.1, hr h.1.2⟩, hc h.2⟩
  exact ⟨hsub.subset, hsub.length_le⟩

/-- A transaction used to build the concrete data sets of the witnesses and
counterexamples below. -/
def baseRec : Record :=
  { sale_date := ⟨2022, 1, 15⟩
    year := "2022"
    quarter := "Q1"
    region := "North America"
    country := "USA"
    category := "Phone"
    product_name := "Galaxy S22"
    customer_segment := "Consumer"
    customer_age_group := "25-34"
    previous_device_os := some "Android"
    sales_channel := "Online"
    payment_method := "Card"
    return_status := "Not Returned"
    is_5g := "Yes"
    unit_price_usd := some 800
    discount_pct := some 10
    discounted_price_usd := some 720
    units_sold := some 1
    revenue_usd := some 720
    customer_rating := some 4
    month_num := 1 }

/-- The narrower of the two filter specs used by the C2 witness. -/
def specNarrow : FilterSpec :=
  { years := ["2022"], regions := ["North America"], categories := ["Phone"] }

/-- The wider of the two filter specs used by the C2 witness. -/
def specWide : FilterSpec :=
  { years := ["2022", "2023"], regions := ["North America", "Europe"]
    categories := ["Phone", "TV"] }

/-- C2 witness: the monotonicity theorem applied to a concrete record list
and a concrete pair of nested filter specs. -/
theorem C2_filter_monotone_witness :
    filterRecords specNarrow [baseRec] ⊆ filterRecords specWide [baseRec] ∧
      (filterRecords specNarrow [baseRec]).length ≤
        (filterRecords specWide [baseRec]).length :=
  C2_filter_monotone specNarrow specWide [baseRec]
    (by decide) (by decide) (by decide)

/-- A raw CSV row whose own `year` column disagrees with the calendar year
of its `sale_date`. -/
def rawYearMismatch : RawRow :=
  { sale_date := ⟨2023, 5, 1⟩
    year := 2022
    quarter := "Q2"
    region := "North America"
    country := "USA"
    category := "Phone"
    product_name := "Galaxy S22"
    customer_segment := "Consumer"
    customer_age_group := "25-34"
    previous_device_os := some "Android"
    sales_channel := "Online"
    payment_method := "Card"
    return_status := "Not Returned"
    is_5g := "Yes"
    unit_price_usd := some 800
    discount_pct := some 10
    discounted_price_usd := some 720
    units_sold := some 1
    revenue_usd := some 720
    customer_rating := some 4 }

/-- C3 counterexample: the loader keeps the input file's own year column
(`astype(str)`), so on a row whose year column says 2022 while the sale date
falls in 2023, the loaded record's year is not the calendar year of the sale
date. -/
theorem C3_year_from_input_cex :
    (loadRow rawYearMismatch).year ≠ toString rawYearMismatch.sale_date.year := by
  decide

/-- C3 amended: the month index is recomputed from the sale date at load,
but the year field is the input's own year column converted to text, not
recomputed from the sale date. -/
theorem C3_load_derivation (x : RawRow) :
    (loadRow x).month_num = x.sale_date.month ∧ (loadRow x).year = toString x.year :=
  ⟨rfl, rfl⟩

/-- What the script does right after applying the filters: `st.stop()` when
the filtered frame is empty, otherwise the page branches run on the
filtered frame. -/
inductive AppOutcome where
  | halted
  | rendered (df : List Record)
  deriving DecidableEq, Repr

/-- The `if df.empty: st.warning(...); st.stop()` guard at lines 89-91. -/
def applyFiltersAndGuard (s : FilterSpec) (rs : List Record) : AppOutcome :=
  let df := filterRecords s rs
  if df.isEmpty then AppOutcome.halted else AppOutcome.rendered df

/-- The filtered frame the page views and the download button receive, when
any run of them happens at all. -/
def renderedViews : AppOutcome → Option (List Record)
  | AppOutcome.halted => none
  | AppOutcome.rendered df => some df

/-- A filter spec asking for a year (2099) no record has. -/
def spec2099 : FilterSpec :=
  { years := ["2099"], regions := ["North America"], categories := ["Phone"] }

/-- C4 counterexample: with filters that match no record the script halts at
the guard; no downstream view runs and no export is produced, contrary to
the claimed non-fatal EmptyResultState. -/
theorem C4_empty_halts_cex :
    applyFiltersAndGuard spec2099 [baseRec] = AppOutcome.halted ∧
      renderedViews (applyFiltersAndGuard spec2099 [baseRec]) = none := by
  decide

/-- C4 amended: the guard halts the run exactly when the filter intersection
is empty, and otherwise hands the non-empty filtered frame to the views. -/
theorem C4_empty_filter_halts (s : FilterSpec) (rs : List Record) :
    (applyFiltersAndGuard s rs = AppOutcome.halted ↔ filterRecords s rs = []) ∧
      (filterRecords s rs ≠ [] →
        renderedViews (applyFiltersAndGuard s rs) = some (filterRecords s rs)) := by
  constructor
  · constructor
    · intro h
      by_contra hne
      simp [applyFiltersAndGuard, List.isEmpty_iff, hne] at h
    · intro h
      simp [applyFiltersAndGuard, List.isEmpty_iff, h]
  · intro h
    simp [applyFiltersAndGuard, List.isEmpty_iff, h, renderedViews]

/-- A pandas column sum: null cells are skipped, an all-null or empty column
sums to zero (`Series.sum` with the default `skipna=True`). -/
def pandasSumOpt (xs : List (Option ℚ)) : ℚ :=
  (xs.filterMap id).sum

/-- The revenue sum of a record set, `df["revenue_usd"].sum()`. -/
def sumRevenue (rs : List Record) : ℚ :=
  pandasSumOpt (rs.map Record.revenue_usd)

/-- A pandas column mean: null cells are dropped from numerator and
denominator, an all-null or empty column has no mean (`NaN`). -/
def pandasMeanOpt (xs : List (Option ℚ)) : Option ℚ :=
  let vs := xs.filterMap id
  if vs.isEmpty then none else some (vs.sum / (vs.length : ℚ))

/-- Whether any record of `rs` realises the (year, quarter) combination. -/
def hasYearQuarter (rs : List Record) (y q : String) : Bool :=
  rs.any (fun r => r.year == y && r.quarter == q)

/-- One cell of the Overview heatmap pivot
`df.groupby(["year","quarter"])["revenue_usd"].sum().reset_index().pivot(...)`:
no `fillna`, so a (year, quarter) combination with no record stays null. -/
def heat_pivot_cell (rs : List Record) (y q : String) : Option ℚ :=
  if hasYearQuarter rs y q then
    some (sumRevenue (rs.filter (fun r => r.year == y && r.quarter == q)))
  else none

/-- Whether any record of `rs` realises the (region, category) combination. -/
def hasRegionCategory (rs : List Record) (a b : String) : Bool :=
  rs.any (fun r => r.region == a && r.category == b)

/-- One cell of the Regional heatmap pivot
`df.groupby(["region","category"])["revenue_usd"].sum().reset_index().pivot(...).fillna(0)`:
a (region, category) combination with no record becomes numeric zero. -/
def rc_pivot_cell (rs : List Record) (a b : String) : ℚ :=
  (if hasRegionCategory rs a b then
    some (sumRevenue (rs.filter (fun r => r.region == a && r.category == b)))
  else none).getD 0

/-- A second transaction for the C5 counterexample: its year and quarter
differ from `baseRec`, so the (2022, Q2) cell of the Year × Quarter pivot
exists but has no matching record. -/
def recYear2023Q2 : Record :=
  { baseRec with sale_date := ⟨2023, 5, 2⟩, year := "2023", quarter := "Q2", month_num := 5 }

/-- C5 counterexample: in the Year × Quarter revenue pivot — an additive
aggregate — the present row 2022 and present column Q2 meet in a combination
with no record, and the cell is left null, not filled with zero; so zero
filling is not applied uniformly to all additive pivots. -/
theorem C5_heat_pivot_unfilled_cex :
    ([baseRec, recYear2023Q2].any (fun r => r.year == "2022")) = true ∧
      ([baseRec, recYear2023Q2].any (fun r => r.quarter == "Q2")) = true ∧
      heat_pivot_cell [baseRec, recYear2023Q2] "2022" "Q2" = none ∧
      heat_pivot_cell [baseRec, recYear2023Q2] "2022" "Q2" ≠ some 0 := by
  refine ⟨by decide, by decide, ?_, ?_⟩ <;> decide

/-- C5 amended: the fill policy is per view, not per aggregate kind: the
Region × Category revenue pivot fills absent combinations with zero while
the Year × Quarter revenue pivot leaves them null, though both aggregate the
same additive revenue sum; present combinations hold the group's revenue sum
in both. -/
theorem C5_fill_policy_per_view (rs : List Record) (y q a b : String) :
    (hasYearQuarter rs y q = false → heat_pivot_cell rs y q = none) ∧
      (hasRegionCategory rs a b = false → rc_pivot_cell rs a b = 0) ∧
      (hasYearQuarter rs y q = true →
        heat_pivot_cell rs y q =
          some (sumRevenue (rs.filter (fun r => r.year == y && r.quarter == q)))) ∧
      (hasRegionCategory rs a b = true →
        rc_pivot_cell rs a b =
          sumRevenue (rs.filter (fun r => r.region == a && r.category == b))) := by
  refine ⟨fun h => ?_, fun h => ?_, fun h => ?_, fun h => ?_⟩ <;>
    simp [heat_pivot_cell, rc_pivot_cell, h]

/-- Dropping the null cells of a column keeps exactly as many values as
there are records whose cell is non-null. -/
theorem length_filterMap_eq_countP {α β : Type} (f : α → Option β) (l : List α) :
    (l.filterMap f).length = l.countP (fun a => (f a).isSome) := by
  induction l with
  | nil => rfl
  | cons a l ih =>
    cases h : f a <;> simp [List.filterMap_cons, List.countP_cons, h, ih]

/-- The group of records of one category,
`df.groupby("category")` restricted to key `c`. -/
def catGroup (rs : List Record) (c : String) : List Record :=
  rs.filter (fun r => r.category == c)

/-- The per-group value of `df.groupby("category")["customer_rating"].mean()`. -/
def meanRatingByCategory (rs : List Record) (c : String) : Option ℚ :=
  pandasMeanOpt ((catGroup rs c).map Record.customer_rating)

/-- The Overview page's `df['customer_rating'].mean()` KPI. -/
def avgRatingKPI (rs : List Record) : Option ℚ :=
  pandasMeanOpt (rs.map Record.customer_rating)

/-- C6: a group's mean rating is the sum of its non-null ratings divided by
the count of records with a non-null rating; a group whose ratings are all
null gets no mean (and the same holds for the average-rating KPI), never a
coerced zero. -/
theorem C6_mean_null_policy (rs : List Record) (c : String) :
    ((catGroup rs c).countP (fun r => (r.customer_rating).isSome) ≠ 0 →
      meanRatingByCategory rs c =
        some (((catGroup rs c).filterMap Record.customer_rating).sum /
          ((catGroup rs c).countP (fun r => (r.customer_rating).isSome) : ℚ))) ∧
    ((∀ r ∈ catGroup rs c, r.customer_rating = none) →
      meanRatingByCategory rs c = none) ∧
    ((∀ r ∈ rs, r.customer_rating = none) → avgRatingKPI rs = none) := by
  have hmap : ((catGroup rs c).map Record.customer_rating).filterMap id =
      (catGroup rs c).filterMap Record.customer_rating := by
    simp [List.filterMap_map]
  refine ⟨fun h => ?_, fun h => ?_, fun h => ?_⟩
  · have hlen : ((catGroup rs c).filterMap Record.customer_rating).length =
        (catGroup rs c).countP (fun r => (r.customer_rating).isSome) :=
      length_filterMap_eq_countP _ _
    have hne : ¬((catGroup rs c).map Record.customer_rating).filterMap id = [] := by
      rw [hmap]
      intro hnil
      rw [hnil] at hlen
      exact h hlen.symm
    simp only [meanRatingByCategory, pandasMeanOpt, List.isEmpty_iff, if_neg hne]
    rw [hmap, hlen]
  · have hnil : ((catGroup rs c).map Record.customer_rating).filterMap id = [] := by
      rw [hmap, List.filterMap_eq_nil_iff]
      exact h
    simp [meanRatingByCategory, pandasMeanOpt, List.isEmpty_iff, hnil]
  · have hnil : (rs.map Record.customer_rating).filterMap id = [] := by
      rw [List.filterMap_map, List.filterMap_eq_nil_iff]
      simpa using h
    simp [avgRatingKPI, pandasMeanOpt, List.isEmpty_iff, hnil]

/-- The numeric columns selected for the correlation matrix, in source
order: `df[["unit_price_usd", "discount_pct", "units_sold",
"discounted_price_usd", "revenue_usd", "customer_rating"]]`. -/
def corrSelected (r : Record) : List (Option ℚ) :=
  [r.unit_price_usd, r.discount_pct, r.units_sold,
    r.discounted_price_usd, r.revenue_usd, r.customer_rating]

/-- The record set the correlation is computed over: `.dropna()` keeps only
rows with every selected column non-null. -/
def corrRetained (rs : List Record) : List Record :=
  rs.filter (fun r => (corrSelected r).all Option.isSome)

/-- Projection onto the i-th selected numeric column. -/
def selCol (i : Nat) (r : Record) : Option ℚ :=
  (corrSelected r).getD i none

/-- The value vector every pairwise entry of the correlation matrix reads
for column i: the i-th column of the retained record set. -/
def corrColumn (i : Nat) (rs : List Record) : List ℚ :=
  (corrRetained rs).filterMap (selCol i)

/-- On a retained record every selected column projects to a value. -/
theorem selCol_isSome_of_all {r : Record}
    (hall : (corrSelected r).all Option.isSome = true) {i : Nat} (hi : i < 6) :
    (selCol i r).isSome = true := by
  simp only [corrSelected, List.all_cons, List.all_nil, Bool.and_eq_true,
    Bool.and_true] at hall
  obtain ⟨h1, h2, h3, h4, h5, h6⟩ := hall
  interval_cases i <;> simpa [selCol, corrSelected]

/-- C7: listwise deletion — a record feeds the correlation matrix iff every
one of the six selected numeric columns is non-null for it, and every
column's value vector (hence every pairwise entry) ranges over exactly the
retained records, so a single null cell removes its record from all entries
at once. -/
theorem C7_corr_listwise_deletion (rs : List Record) (r : Record) :
    (r ∈ corrRetained rs ↔
      r ∈ rs ∧ r.unit_price_usd.isSome = true ∧ r.discount_pct.isSome = true ∧
        r.units_sold.isSome = true ∧ r.discounted_price_usd.isSome = true ∧
        r.revenue_usd.isSome = true ∧ r.customer_rating.isSome = true) ∧
    (∀ i : Nat, i < 6 → (corrColumn i rs).length = (corrRetained rs).length) := by
  constructor
  · simp [corrRetained, List.mem_filter, corrSelected, and_assoc]
  · intro i hi
    rw [corrColumn, length_filterMap_eq_countP]
    rw [List.countP_eq_length]
    intro a ha
    have hall : (corrSelected a).all Option.isSome = true :=
      (List.mem_filter.mp ha).2
    simpa using selCol_isSome_of_all hall hi

/-- A null-skipping column sum equals the sum over all records with null
cells read as zero. -/
theorem pandasSumOpt_eq_sum_getD (xs : List (Option ℚ)) :
    pandasSumOpt xs = (xs.map (fun o => o.getD 0)).sum := by
  induction xs with
  | nil => rfl
  | cons a xs ih =>
    cases a <;> simp [pandasSumOpt, List.filterMap_cons, ih] at * <;> simp [ih]

/-- The revenue sum of a record set as a total map-sum. -/
theorem sumRevenue_eq_sum_getD (rs : List Record) :
    sumRevenue rs = (rs.map (fun r => (r.revenue_usd).getD 0)).sum := by
  rw [sumRevenue, pandasSumOpt_eq_sum_getD, List.map_map]
  rfl

/-- Splitting a list of records into the fibres of a key function and
summing a value over each fibre reaches every record exactly once. -/
theorem sum_over_groups {κ : Type} [BEq κ] [LawfulBEq κ]
    (v : Record → ℚ) (key : Record → κ) :
    ∀ (ks : List κ), ks.Nodup → ∀ (rs : List Record), (∀ r ∈ rs, key r ∈ ks) →
      (ks.map (fun k => ((rs.filter (fun r => key r == k)).map v).sum)).sum =
        (rs.map v).sum := by
  intro ks
  induction ks with
  | nil =>
    intro _ rs hcov
    have hnil : rs = [] :=
      List.eq_nil_iff_forall_not_mem.mpr (fun r hr => by simpa using hcov r hr)
    subst hnil
    simp
  | cons k ks ih =>
    intro hnd rs hcov
    have hk : k ∉ ks := (List.nodup_cons.mp hnd).1
    have hnd2 : ks.Nodup := (List.nodup_cons.mp hnd).2
    have hcov2 : ∀ r ∈ rs.filter (fun r => !(key r == k)), key r ∈ ks := by
      intro r hr
      have hmem := List.mem_filter.mp hr
      rcases List.mem_cons.mp (hcov r hmem.1) with h | h
      · have hbeq : (key r == k) = true := beq_iff_eq.mpr h
        rw [hbeq] at hmem
        simp at hmem
      · exact h
    have hterm : ∀ k2 ∈ ks,
        ((rs.filter (fun r => key r == k2)).map v).sum =
          (((rs.filter (fun r => !(key r == k))).filter (fun r => key r == k2)).map v).sum := by
      intro k2 hk2
      have heq : (rs.filter (fun r => !(key r == k))).filter (fun r => key r == k2) =
          rs.filter (fun r => key r == k2) := by
        rw [List.filter_filter]
        apply List.filter_congr
        intro r _
        cases h2 : (key r == k2) with
        | false => simp
        | true =>
          have hkr : key r = k2 := beq_iff_eq.mp h2
          have hne : (key r == k) = false := by
            rw [beq_eq_false_iff_ne]
            intro h3
            exact hk (h3 ▸ hkr ▸ hk2)
          simp [hne]
      rw [heq]
    have hperm : List.Perm
        (rs.filter (fun r => key r == k) ++ rs.filter (fun r => !(key r == k))) rs :=
      List.filter_append_perm _ rs
    have hsplit : (rs.map v).sum =
        ((rs.filter (fun r => key r == k)).map v).sum +
          ((rs.filter (fun r => !(key r == k))).map v).sum := by
      have := ((hperm.map v).sum_eq).symm
      rwa [List.map_append, List.sum_append] at this
    calc ((k :: ks).map (fun k2 => ((rs.filter (fun r => key r == k2)).map v).sum)).sum
        = ((rs.filter (fun r => key r == k)).map v).sum +
            (ks.map (fun k2 => ((rs.filter (fun r => key r == k2)).map v).sum)).sum := by
          simp
      _ = ((rs.filter (fun r => key r == k)).map v).sum +
            (ks.map (fun k2 =>
              (((rs.filter (fun r => !(key r == k))).filter
                (fun r => key r == k2)).map v).sum)).sum := by
          rw [List.map_congr_left hterm]
      _ = ((rs.filter (fun r => key r == k)).map v).sum +
            ((rs.filter (fun r => !(key r == k))).map v).sum := by
          rw [ih hnd2 _ hcov2]
      _ = (rs.map v).sum := hsplit.symm

/-- Lexicographic comparison of character lists by code point, the order
Python's `sorted` and pandas' groupby use for strings. -/
def charsLe : List Char → List Char → Bool
  | [], _ => true
  | _ :: _, [] => false
  | c :: cs, d :: ds => if c = d then charsLe cs ds else decide (c < d)

/-- Ascending lexicographic order on strings. -/
def strLe (a b : String) : Prop :=
  charsLe a.data b.data = true

instance : DecidableRel strLe :=
  fun a b => inferInstanceAs (Decidable (charsLe a.data b.data = true))

/-- The group keys of a one-dimension `df.groupby(key)`: the distinct key
values in ascending order (pandas sorts group keys by default). -/
def groupbyKeys (key : Record → String) (rs : List Record) : List String :=
  List.insertionSort strLe ((rs.map key).dedup)

/-- `df.groupby(key)["revenue_usd"].sum()` as an ordered key → value
association. -/
def groupbySumRevenue (key : Record → String) (rs : List Record) :
    List (String × ℚ) :=
  (groupbyKeys key rs).map (fun k => (k, sumRevenue (rs.filter (fun r => key r == k))))

/-- The Overview page's `df['revenue_usd'].sum()` KPI. -/
def totalRevenueKPI (rs : List Record) : ℚ :=
  sumRevenue rs

/-- C8: partition completeness — for any single grouping dimension, the
per-group revenue sums add up to the total revenue of the whole filtered
set. -/
theorem C8_partition_completeness (key : Record → String) (rs : List Record) :
    ((groupbySumRevenue key rs).map Prod.snd).sum = totalRevenueKPI rs := by
  have hnd : (groupbyKeys key rs).Nodup :=
    ((List.perm_insertionSort _ _).symm).nodup (List.nodup_dedup _)
  have hcov : ∀ r ∈ rs, key r ∈ groupbyKeys key rs := by
    intro r hr
    have : key r ∈ (rs.map key).dedup :=
      List.mem_dedup.mpr (List.mem_map_of_mem key hr)
    exact ((List.perm_insertionSort _ _).mem_iff).mpr this
  have hmain := sum_over_groups (fun r => (r.revenue_usd).getD 0) key
    (groupbyKeys key rs) hnd rs hcov
  calc ((groupbySumRevenue key rs).map Prod.snd).sum
      = ((groupbyKeys key rs).map
          (fun k => sumRevenue (rs.filter (fun r => key r == k)))).sum := by
        rw [groupbySumRevenue, List.map_map]
        rfl
    _ = ((groupbyKeys key rs).map
          (fun k => ((rs.filter (fun r => key r == k)).map
            (fun r => (r.revenue_usd).getD 0)).sum)).sum := by
        apply congrArg
        apply List.map_congr_left
        intro k _
        exact sumRevenue_eq_sum_getD _
    _ = (rs.map (fun r => (r.revenue_usd).getD 0)).sum := hmain
    _ = totalRevenueKPI rs := (sumRevenue_eq_sum_getD rs).symm

/-- The order `sort_values(ascending=False)` sorts by: larger aggregate
value first. -/
def revDescRel (a b : String × ℚ) : Prop :=
  b.2 ≤ a.2

instance : DecidableRel revDescRel :=
  fun a b => inferInstanceAs (Decidable (b.2 ≤ a.2))

instance : IsTotal (String × ℚ) revDescRel :=
  ⟨fun a b => le_total b.2 a.2⟩

instance : IsTrans (String × ℚ) revDescRel :=
  ⟨fun _ _ _ h1 h2 => le_trans h2 h1⟩

/-- `sort_values(ascending=False)` on a grouped result, modelled as a
stable sort by descending aggregate value. -/
def sort_values_desc (l : List (String × ℚ)) : List (String × ℚ) :=
  List.insertionSort revDescRel l

/-- A ranked view such as Top 15 products or Top 20 countries:
`df.groupby(key)["revenue_usd"].sum().sort_values(ascending=False).head(n)`. -/
def topNRevenue (key : Record → String) (n : Nat) (rs : List Record) :
    List (String × ℚ) :=
  (sort_values_desc (groupbySumRevenue key rs)).take n

/-- Distinct values in order of first appearance. -/
def dedupFirst (l : List String) : List String :=
  l.foldl (fun acc x => if acc.contains x then acc else acc ++ [x]) []

/-- The grouped result with keys in first-appearance order of the
underlying records, as the spec's RankExtractor section describes it. -/
def groupsFirstAppearance (key : Record → String) (rs : List Record) :
    List (String × ℚ) :=
  (dedupFirst (rs.map key)).map
    (fun k => (k, sumRevenue (rs.filter (fun r => key r == k))))

/-- Rank extraction as the spec words it: a stable sort by value whose ties
keep first-appearance order of the underlying filtered records, then
truncation. Kept for comparison with `topNRevenue`. -/
def rankExtractSpec (key : Record → String) (n : Nat) (rs : List Record) :
    List (String × ℚ) :=
  (sort_values_desc (groupsFirstAppearance key rs)).take n

/-- Product "B", seen first in the C9 record list. -/
def recProductB : Record :=
  { baseRec with product_name := "B" }

/-- Product "A", seen second in the C9 record list, with the same revenue. -/
def recProductA : Record :=
  { baseRec with product_name := "A" }

/-- C9 counterexample: two products tie on revenue; product "B" appears
first in the filtered records, but the ranked view lists "A" first, because
the sort runs on the groupby result whose keys are in ascending key order,
not in first-appearance order. -/
theorem C9_tie_break_cex :
    topNRevenue Record.product_name 15 [recProductB, recProductA] =
        [("A", 720), ("B", 720)] ∧
      rankExtractSpec Record.product_name 15 [recProductB, recProductA] =
        [("B", 720), ("A", 720)] ∧
      topNRevenue Record.product_name 15 [recProductB, recProductA] ≠
        rankExtractSpec Record.product_name 15 [recProductB, recProductA] := by
  refine ⟨?_, ?_, ?_⟩ <;> with_unfolding_all decide

/-- C9 amended: the ranked view is sorted by descending aggregate value —
ties following the ascending group-key order the sort receives, not
first-appearance order — and truncation to top-N keeps the first N sorted
entries, or all of them when fewer than N groups exist. -/
theorem C9_rank_extract (key : Record → String) (n : Nat) (rs : List Record) :
    List.Sorted revDescRel (topNRevenue key n rs) ∧
      (topNRevenue key n rs).length = min n (groupbySumRevenue key rs).length ∧
      ((groupbySumRevenue key rs).length ≤ n →
        topNRevenue key n rs = sort_values_desc (groupbySumRevenue key rs)) := by
  refine ⟨?_, ?_, fun h => ?_⟩
  · have hs : List.Sorted revDescRel (sort_values_desc (groupbySumRevenue key rs)) :=
      List.sorted_insertionSort revDescRel _
    exact List.Pairwise.sublist (List.take_sublist _ _) hs
  · rw [topNRevenue, List.length_take, sort_values_desc,
      (List.perm_insertionSort revDescRel _).length_eq]
  · rw [topNRevenue, List.take_of_length_le]
    rw [sort_values_desc, (List.perm_insertionSort revDescRel _).length_eq]
    exact h

/-- The Raw Data Explorer table, `st.dataframe(df.head(500), ...)`: the
first 500 filtered rows. -/
def explorerRows (rs : List Record) : List Record :=
  rs.take 500

/-- The rows serialized by the download button,
`df.to_csv(index=False)`: every filtered row. -/
def downloadRows (rs : List Record) : List Record :=
  rs

/-- C10: the displayed table is always an initial segment of the exported
rows, and once more than 500 rows pass the filters it is a strict one. -/
theorem C10_display_export (rs : List Record) :
    explorerRows rs ++ rs.drop 500 = downloadRows rs ∧
      (500 < rs.length → explorerRows rs ≠ downloadRows rs) := by
  constructor
  · exact List.take_append_drop 500 rs
  · intro h heq
    have hlen : (explorerRows rs).length = rs.length := by rw [heq]; rfl
    rw [explorerRows, List.length_take] at hlen
    omega
